import Mathlib

/-!
Verification of `bridge.py`, a bidirectional Discord <-> Stoat chat bridge.

The development shallowly embeds the module-level pair-table construction
and the two relay event handlers (`StoatBot.on_message_create` and
`DiscordBot.on_message`) as pure Lean functions.  Python dictionaries built
by comprehension are embedded as entry lists in insertion order with a
last-binding-wins lookup, matching CPython dict semantics.  Each handler is
embedded as a function from the read-only shared state and the inbound
event to the list of observable effects it performs (outbound send calls
and log lines); the outcome of the single outbound network call is an
explicit boolean input, since it is decided by the environment.
-/

namespace Bridge

/-- Lookup in a Python dict built by inserting `entries` in order:
a later binding of the same key shadows every earlier one. -/
def dictGet {α β : Type} [DecidableEq α] : List (α × β) → α → Option β
  | [], _ => none
  | (k, v) :: rest, x =>
    match dictGet rest x with
    | some w => some w
    | none => if x = k then some v else none

/-- Discord channel ids are Python `int`s. -/
abbrev DiscordId := Int

/-- Stoat channel ids are Python `str`s. -/
abbrev StoatId := String

/-- The two module-level dicts `STOAT_TO_DISCORD` and `DISCORD_TO_STOAT`,
kept as their insertion-ordered entry lists. -/
structure PairTable where
  stoatToDiscord : List (StoatId × DiscordId)
  discordToStoat : List (DiscordId × StoatId)
  deriving DecidableEq

/-- Module-level pair-table construction (`bridge.py` lines 68-83): a
length mismatch raises `RuntimeError` before either dict comprehension
runs; otherwise the two dicts are built from `zip(DISCORD_CHANNEL_IDS,
STOAT_CHANNEL_IDS)`. -/
def buildPairTable (discordIds : List DiscordId) (stoatIds : List StoatId) :
    Except String PairTable :=
  if discordIds.length ≠ stoatIds.length then
    .error "Channel list length mismatch"
  else
    .ok { stoatToDiscord := (discordIds.zip stoatIds).map (fun p => (p.2, p.1)),
          discordToStoat := discordIds.zip stoatIds }

/-- `STOAT_TO_DISCORD[s]` as a total lookup (`None` for a missing key). -/
def resolveToDiscord (t : PairTable) (s : StoatId) : Option DiscordId :=
  dictGet t.stoatToDiscord s

/-- `DISCORD_TO_STOAT[d]` as a total lookup (`None` for a missing key). -/
def resolveToStoat (t : PairTable) (d : DiscordId) : Option StoatId :=
  dictGet t.discordToStoat d

/-- The mutable registries shared by the two bots:
`discord_webhooks : dict[int, discord.Webhook]` is kept as Discord channel
id ↦ webhook id entries (insertion order, last wins);
`stoat_channels : dict[str, object]` maps each fetched Stoat channel id to
its live channel handle, so presence of the key is what the relay reads. -/
structure BridgeState where
  discordWebhooks : List (DiscordId × Int)
  stoatChannels : List StoatId
  deriving DecidableEq

/-- The fields of `stoat.MessageCreateEvent` read by
`StoatBot.on_message_create`.  `authorDisplayName` is `None` or a string
(Python truthiness makes `""` fall through to `name` as well);
`authorAvatarUrl` is `avatar.url()` when the author has an avatar and
`None` otherwise. -/
structure StoatMessage where
  authorId : String
  channelId : StoatId
  content : String
  authorName : String
  authorDisplayName : Option String
  authorAvatarUrl : Option String
  deriving DecidableEq

/-- The fields of `discord.Message` read by `DiscordBot.on_message`.
`webhookId` is `None` for ordinary messages; `authorAvatarUrl` is
`str(message.author.avatar.url)` when set, `None` otherwise, and
`authorDefaultAvatarUrl` is `str(message.author.default_avatar.url)`. -/
structure DiscordMessage where
  webhookId : Option Int
  authorId : Int
  channelId : DiscordId
  content : String
  authorDisplayName : String
  authorAvatarUrl : Option String
  authorDefaultAvatarUrl : String
  deriving DecidableEq

/-- The observable effects a relay handler can perform: one outbound send
call per direction, or one of the log lines it emits. -/
inductive Effect where
  | sendDiscord (discordChannelId : DiscordId) (webhookId : Int)
      (content : String) (username : String) (avatarUrl : Option String)
  | sendStoat (stoatChannelId : StoatId) (content : String)
      (masqueradeName : String) (masqueradeAvatar : String)
  | warnWebhookNotReady (discordChannelId : DiscordId)
  | warnStoatNotReady (stoatChannelId : StoatId)
  | errorStoatToDiscord (discordChannelId : DiscordId)
  | errorDiscordToStoat (stoatChannelId : StoatId)
  deriving DecidableEq

/-- Python string slicing `s[:n]`: the first `n` code points of `s`
(the whole string when it is shorter). -/
def pyTake (s : String) (n : Nat) : String := ⟨s.data.take n⟩

/-- `msg.author.display_name or msg.author.name`: Python `or` falls back
when the left side is `None` or the empty string. -/
def stoatAuthorName (m : StoatMessage) : String :=
  match m.authorDisplayName with
  | some dn => if dn = "" then m.authorName else dn
  | none => m.authorName

/-- `StoatBot.on_message_create` (`bridge.py` lines 104-137) as a function
from the read-only shared state and the event to the effect list.  `meId`
is `self.me.id`; `sendFails` tells whether the single `webhook.send` call
raises (the `try`/`except` turns that into one error log line). -/
def onMessageCreate (table : PairTable) (st : BridgeState) (meId : String)
    (msg : StoatMessage) (sendFails : Bool) : List Effect :=
  if msg.authorId = meId then []
  else
    match resolveToDiscord table msg.channelId with
    | none => []
    | some discordId =>
      if msg.content = "" then []
      else
        match dictGet st.discordWebhooks discordId with
        | none => [.warnWebhookNotReady discordId]
        | some wh =>
          if sendFails then [.errorStoatToDiscord discordId]
          else [.sendDiscord discordId wh (pyTake msg.content 2000)
                  (pyTake (stoatAuthorName msg) 80) msg.authorAvatarUrl]

/-- `message.webhook_id and message.webhook_id in {wh.id for wh in
discord_webhooks.values()}`: Python truthiness of `Optional[int]` treats
both `None` and `0` as false, so the drop fires only for a nonzero
webhook id that is among the registered webhook ids. -/
def isOwnWebhookMessage (st : BridgeState) (m : DiscordMessage) : Bool :=
  match m.webhookId with
  | some w => w ≠ 0 && w ∈ st.discordWebhooks.map Prod.snd
  | none => false

/-- `DiscordBot.on_message` (`bridge.py` lines 184-217) as a function from
the read-only shared state and the event to the effect list.  `selfUserId`
is `self.user.id`, which the handler never reads; `sendFails` tells
whether the single `ch.send` call raises. -/
def onMessage (table : PairTable) (st : BridgeState) (selfUserId : Int)
    (msg : DiscordMessage) (sendFails : Bool) : List Effect :=
  if isOwnWebhookMessage st msg then []
  else
    match resolveToStoat table msg.channelId with
    | none => []
    | some stoatId =>
      if msg.content = "" then []
      else if stoatId ∈ st.stoatChannels then
        let avatarUrl :=
          match msg.authorAvatarUrl with
          | some u => u
          | none => msg.authorDefaultAvatarUrl
        if sendFails then [.errorDiscordToStoat stoatId]
        else [.sendStoat stoatId (pyTake msg.content 2000)
                (pyTake msg.authorDisplayName 32) avatarUrl]
      else [.warnStoatNotReady stoatId]

/-- Handling a stream of Stoat events one after the other: the handler
reads but never writes the shared state, so the effects concatenate. -/
def runStoatEvents (table : PairTable) (st : BridgeState) (meId : String) :
    List (StoatMessage × Bool) → List Effect
  | [] => []
  | (m, f) :: rest =>
      onMessageCreate table st meId m f ++ runStoatEvents table st meId rest

/-- Handling a stream of Discord events one after the other. -/
def runDiscordEvents (table : PairTable) (st : BridgeState) (selfUserId : Int) :
    List (DiscordMessage × Bool) → List Effect
  | [] => []
  | (m, f) :: rest =>
      onMessage table st selfUserId m f ++ runDiscordEvents table st selfUserId rest

theorem dictGet_eq_none_of_not_mem {α β : Type} [DecidableEq α]
    (entries : List (α × β)) (x : α) (h : x ∉ entries.map Prod.fst) :
    dictGet entries x = none := by
  induction entries with
  | nil => rfl
  | cons p rest ih =>
    simp only [List.map_cons, List.mem_cons] at h
    push_neg at h
    simp only [dictGet, ih h.2, if_neg h.1]

theorem dictGet_cons {α β : Type} [DecidableEq α]
    (k : α) (v : β) (rest : List (α × β)) (x : α) :
    dictGet ((k, v) :: rest) x =
      match dictGet rest x with
      | some w => some w
      | none => if x = k then some v else none := rfl

/-- Last-binding-wins: if position `i` is the last occurrence of the key
`ks.get i` in `ks`, looking it up in the dict built from `ks.zip vs`
returns `vs.get i`. -/
theorem dictGet_zip_last {α β : Type} [DecidableEq α] :
    ∀ (ks : List α) (vs : List β), ks.length = vs.length →
    ∀ (i : Nat) (hi : i < ks.length) (hv : i < vs.length),
    (∀ (j : Nat) (hj : j < ks.length), i < j → ks.get ⟨j, hj⟩ ≠ ks.get ⟨i, hi⟩) →
    dictGet (ks.zip vs) (ks.get ⟨i, hi⟩) = some (vs.get ⟨i, hv⟩)
  | [], _, _, i, hi, _, _ => absurd hi (Nat.not_lt_zero i)
  | k :: ks, [], hlen, _, _, _, _ => by simp at hlen
  | k :: ks, v :: vs, hlen, 0, hi, hv, hlast => by
    have ihlen : ks.length = vs.length := by simpa using hlen
    have hk : k ∉ ks := by
      intro hmem
      obtain ⟨⟨j, hj⟩, hget⟩ := List.mem_iff_get.mp hmem
      exact hlast (j + 1) (Nat.succ_lt_succ hj) (Nat.succ_pos j) (by simpa using hget)
    have hnone : dictGet (ks.zip vs) k = none := by
      apply dictGet_eq_none_of_not_mem
      intro hmem
      rw [List.map_fst_zip ks vs (le_of_eq ihlen)] at hmem
      exact hk hmem
    rw [List.zip_cons_cons]
    show dictGet ((k, v) :: ks.zip vs) k = some v
    rw [dictGet_cons, hnone]
    simp
  | k :: ks, v :: vs, hlen, i + 1, hi, hv, hlast => by
    have ihlen : ks.length = vs.length := by simpa using hlen
    have hi' : i < ks.length := Nat.lt_of_succ_lt_succ hi
    have hv' : i < vs.length := Nat.lt_of_succ_lt_succ hv
    have ih := dictGet_zip_last ks vs ihlen i hi' hv' (by
      intro j hj hij
      have := hlast (j + 1) (Nat.succ_lt_succ hj) (Nat.succ_lt_succ hij)
      simpa using this)
    rw [List.zip_cons_cons, List.get_cons_succ, List.get_cons_succ, dictGet_cons, ih]

/-- In a list without duplicates, every position is the last occurrence. -/
theorem dictGet_zip_nodup {α β : Type} [DecidableEq α]
    (ks : List α) (vs : List β) (hlen : ks.length = vs.length)
    (hnd : ks.Nodup) (i : Nat) (hi : i < ks.length) (hv : i < vs.length) :
    dictGet (ks.zip vs) (ks.get ⟨i, hi⟩) = some (vs.get ⟨i, hv⟩) := by
  apply dictGet_zip_last ks vs hlen i hi hv
  intro j hj hij hgeq
  have hfin : (⟨j, hj⟩ : Fin ks.length) = ⟨i, hi⟩ :=
    (List.Nodup.get_inj_iff hnd).mp hgeq
  have : j = i := congrArg Fin.val hfin
  omega

theorem zip_map_swap {α β : Type} :
    ∀ (l1 : List α) (l2 : List β),
    (l1.zip l2).map (fun p => (p.2, p.1)) = l2.zip l1
  | [], _ => by simp
  | _ :: _, [] => by simp
  | a :: l1, b :: l2 => by
    simp [List.zip_cons_cons, zip_map_swap l1 l2]

/-- Claim C5: constructing the Pair Table from two channel-id lists of
unequal length always fails with the configuration error
(`RuntimeError` at `bridge.py` line 69), and no table value — not even a
partial one — is produced. -/
theorem c5_unequal_lengths_fail (discordIds : List DiscordId)
    (stoatIds : List StoatId) (h : discordIds.length ≠ stoatIds.length) :
    buildPairTable discordIds stoatIds = .error "Channel list length mismatch" ∧
    ∀ t : PairTable, buildPairTable discordIds stoatIds ≠ .ok t := by
  have he : buildPairTable discordIds stoatIds =
      .error "Channel list length mismatch" := by
    simp [buildPairTable, h]
  refine ⟨he, fun t hok => ?_⟩
  rw [he] at hok
  exact Except.noConfusion hok

/-- Witness for C5 at the concrete lists `[5]` and `[]`. -/
theorem c5_witness :
    ([(5 : DiscordId)].length ≠ ([] : List StoatId).length) ∧
    (buildPairTable [(5 : DiscordId)] [] = .error "Channel list length mismatch" ∧
     ∀ t : PairTable, buildPairTable [(5 : DiscordId)] [] ≠ .ok t) :=
  ⟨by decide, c5_unequal_lengths_fail [(5 : DiscordId)] [] (by decide)⟩

/-- Claim C2 as stated fails on the Discord side: `DiscordBot.on_message`
never compares the author to `self.user`, so a Discord message authored by
the bot user itself (author id 42 = bot user id 42) that carries no webhook
id, on a configured channel with nonempty content, is relayed (one
outbound send), where the claim demands zero. -/
theorem c2_counterexample :
    onMessage ⟨[("s1", 5)], [(5, "s1")]⟩ ⟨[(5, 900)], ["s1"]⟩ 42
      ⟨none, 42, 5, "hi", "Bob", none, "dflt"⟩ false
      = [.sendStoat "s1" "hi" "Bob" "dflt"] := by decide

/-- Claim C2 (amended): on the Stoat direction, a message whose author id
equals the Stoat bot's own id (`self.me.id`) is never forwarded — the
handler produces no effects, for any channel, content, registry state or
send outcome.  The Discord handler has no author-identity filter at all;
its self-echo protection is only the webhook-id check (claim C3). -/
theorem c2_stoat_self_message_dropped (table : PairTable) (st : BridgeState)
    (meId : String) (msg : StoatMessage) (f : Bool) (h : msg.authorId = meId) :
    onMessageCreate table st meId msg f = [] := by
  simp [onMessageCreate, h]

/-- Witness for (amended) C2 at a concrete self-authored Stoat message. -/
theorem c2_witness :
    ((⟨"me", "s1", "hi", "Bob", none, none⟩ : StoatMessage).authorId = "me") ∧
    onMessageCreate ⟨[("s1", 5)], [(5, "s1")]⟩ ⟨[(5, 900)], ["s1"]⟩ "me"
      ⟨"me", "s1", "hi", "Bob", none, none⟩ false = [] :=
  ⟨rfl, c2_stoat_self_message_dropped _ _ _ _ _ rfl⟩

/-- Claim C3 as stated fails at webhook id 0: Python truthiness makes
`message.webhook_id and ...` skip the drop when the webhook id is 0, so a
Discord message whose webhook id 0 is among the registered webhook ids is
still relayed (one outbound send), where the claim demands zero. -/
theorem c3_counterexample :
    ((0 : Int) ∈ (BridgeState.mk [(5, 0)] ["s1"]).discordWebhooks.map Prod.snd) ∧
    onMessage ⟨[("s1", 5)], [(5, "s1")]⟩ ⟨[(5, 0)], ["s1"]⟩ 42
      ⟨some 0, 7, 5, "hi", "Bob", none, "dflt"⟩ false
      = [.sendStoat "s1" "hi" "Bob" "dflt"] :=
  ⟨by decide, by decide⟩

/-- Claim C3 (amended): a Discord message whose webhook id is nonzero and
among the webhook ids registered in `discord_webhooks` produces zero
outbound effects. -/
theorem c3_own_webhook_message_dropped (table : PairTable) (st : BridgeState)
    (selfUserId : Int) (msg : DiscordMessage) (f : Bool) (w : Int)
    (hw : msg.webhookId = some w) (h0 : w ≠ 0)
    (hmem : w ∈ st.discordWebhooks.map Prod.snd) :
    onMessage table st selfUserId msg f = [] := by
  simp [onMessage, isOwnWebhookMessage, hw, h0, hmem]

/-- Witness for (amended) C3 at a concrete own-webhook Discord message. -/
theorem c3_witness :
    ((⟨some 900, 7, 5, "hi", "Bob", none, "dflt"⟩ : DiscordMessage).webhookId
        = some 900) ∧
    ((900 : Int) ≠ 0) ∧
    ((900 : Int) ∈ (BridgeState.mk [(5, 900)] ["s1"]).discordWebhooks.map Prod.snd) ∧
    onMessage ⟨[("s1", 5)], [(5, "s1")]⟩ ⟨[(5, 900)], ["s1"]⟩ 42
      ⟨some 900, 7, 5, "hi", "Bob", none, "dflt"⟩ false = [] :=
  ⟨rfl, by decide, by decide,
    c3_own_webhook_message_dropped _ _ _ _ _ 900 rfl (by decide) (by decide)⟩

/-- Claim C9: a message whose source channel id is not in the Pair Table
for its direction produces no effects at all, and this holds for every
possible registry state — the destination Registry is never consulted
(the result does not depend on it) and zero outbound sends are made. -/
theorem c9_unconfigured_channel_dropped (table : PairTable) (meId : String)
    (sm : StoatMessage) (f : Bool) (selfUserId : Int) (dm : DiscordMessage)
    (f' : Bool) (hs : resolveToDiscord table sm.channelId = none)
    (hd : resolveToStoat table dm.channelId = none) :
    (∀ st : BridgeState, onMessageCreate table st meId sm f = []) ∧
    (∀ st : BridgeState, onMessage table st selfUserId dm f' = []) := by
  constructor
  · intro st
    by_cases h : sm.authorId = meId
    · simp [onMessageCreate, h]
    · simp [onMessageCreate, h, hs]
  · intro st
    by_cases h : isOwnWebhookMessage st dm
    · simp [onMessage, h]
    · simp [onMessage, h, hd]

/-- Witness for C9 at concrete unconfigured channels (`"zz"` and `99`). -/
theorem c9_witness :
    (resolveToDiscord ⟨[("s1", 5)], [(5, "s1")]⟩ "zz" = none) ∧
    (resolveToStoat ⟨[("s1", 5)], [(5, "s1")]⟩ 99 = none) ∧
    onMessageCreate ⟨[("s1", 5)], [(5, "s1")]⟩ ⟨[(5, 900)], ["s1"]⟩ "me"
      ⟨"u1", "zz", "hi", "Bob", none, none⟩ false = [] ∧
    onMessage ⟨[("s1", 5)], [(5, "s1")]⟩ ⟨[(5, 900)], ["s1"]⟩ 42
      ⟨none, 7, 99, "hi", "Bob", none, "dflt"⟩ false = [] :=
  ⟨by decide, by decide,
    (c9_unconfigured_channel_dropped ⟨[("s1", 5)], [(5, "s1")]⟩ "me"
      ⟨"u1", "zz", "hi", "Bob", none, none⟩ false 42
      ⟨none, 7, 99, "hi", "Bob", none, "dflt"⟩ false
      (by decide) (by decide)).1 ⟨[(5, 900)], ["s1"]⟩,
    (c9_unconfigured_channel_dropped ⟨[("s1", 5)], [(5, "s1")]⟩ "me"
      ⟨"u1", "zz", "hi", "Bob", none, none⟩ false 42
      ⟨none, 7, 99, "hi", "Bob", none, "dflt"⟩ false
      (by decide) (by decide)).2 ⟨[(5, 900)], ["s1"]⟩⟩

/-- Claim C1 as stated fails when an identifier repeats on one side:
building from Discord ids `[1, 2]` and Stoat ids `["a", "a"]`, the table
resolves the 0-th Stoat id `"a"` to 2 (the Discord id paired at the last
occurrence), not to the 0-th Discord id 1 as the claim requires. -/
theorem c1_counterexample :
    buildPairTable [(1 : DiscordId), 2] ["a", "a"] =
      .ok ⟨[("a", 1), ("a", 2)], [(1, "a"), (2, "a")]⟩ ∧
    resolveToDiscord ⟨[("a", 1), ("a", 2)], [(1, "a"), (2, "a")]⟩ "a" = some 2 ∧
    resolveToDiscord ⟨[("a", 1), ("a", 2)], [(1, "a"), (2, "a")]⟩ "a" ≠ some 1 :=
  ⟨rfl, rfl, by decide⟩

/-- Claim C1 (amended with the data-model invariant that identifiers are
unique within each side's list): for equal-length duplicate-free lists the
Pair Table resolves the i-th Stoat id to the i-th Discord id and
conversely, and resolves any id absent from the queried side to `none`. -/
theorem c1_pair_table_resolves (discordIds : List DiscordId)
    (stoatIds : List StoatId) (t : PairTable)
    (hlen : discordIds.length = stoatIds.length)
    (hndD : discordIds.Nodup) (hndS : stoatIds.Nodup)
    (hbuild : buildPairTable discordIds stoatIds = .ok t) :
    (∀ (i : Nat) (hiS : i < stoatIds.length) (hiD : i < discordIds.length),
      resolveToDiscord t (stoatIds.get ⟨i, hiS⟩)
        = some (discordIds.get ⟨i, hiD⟩)) ∧
    (∀ (i : Nat) (hiD : i < discordIds.length) (hiS : i < stoatIds.length),
      resolveToStoat t (discordIds.get ⟨i, hiD⟩)
        = some (stoatIds.get ⟨i, hiS⟩)) ∧
    (∀ s : StoatId, s ∉ stoatIds → resolveToDiscord t s = none) ∧
    (∀ d : DiscordId, d ∉ discordIds → resolveToStoat t d = none) := by
  have ht : t = ⟨(discordIds.zip stoatIds).map (fun p => (p.2, p.1)),
                 discordIds.zip stoatIds⟩ := by
    unfold buildPairTable at hbuild
    rw [if_neg (by omega)] at hbuild
    injection hbuild with h
    exact h.symm
  subst ht
  refine ⟨?_, ?_, ?_, ?_⟩
  · intro i hiS hiD
    show dictGet ((discordIds.zip stoatIds).map (fun p => (p.2, p.1))) _ = _
    rw [zip_map_swap]
    exact dictGet_zip_nodup stoatIds discordIds hlen.symm hndS i hiS hiD
  · intro i hiD hiS
    exact dictGet_zip_nodup discordIds stoatIds hlen hndD i hiD hiS
  · intro s hs
    show dictGet ((discordIds.zip stoatIds).map (fun p => (p.2, p.1))) s = none
    rw [zip_map_swap]
    apply dictGet_eq_none_of_not_mem
    rw [List.map_fst_zip stoatIds discordIds (le_of_eq hlen.symm)]
    exact hs
  · intro d hd
    apply dictGet_eq_none_of_not_mem
    rw [List.map_fst_zip discordIds stoatIds (le_of_eq hlen)]
    exact hd

/-- Witness for (amended) C1 at the duplicate-free lists `[5, 6]` and
`["s1", "s2"]`. -/
theorem c1_witness :
    (([(5 : DiscordId), 6].length = ["s1", "s2"].length) ∧
     [(5 : DiscordId), 6].Nodup ∧ (["s1", "s2"] : List StoatId).Nodup ∧
     buildPairTable [(5 : DiscordId), 6] ["s1", "s2"] =
       .ok ⟨[("s1", 5), ("s2", 6)], [(5, "s1"), (6, "s2")]⟩) ∧
    resolveToDiscord ⟨[("s1", 5), ("s2", 6)], [(5, "s1"), (6, "s2")]⟩ "s1"
      = some 5 ∧
    resolveToStoat ⟨[("s1", 5), ("s2", 6)], [(5, "s1"), (6, "s2")]⟩ 6
      = some "s2" ∧
    resolveToDiscord ⟨[("s1", 5), ("s2", 6)], [(5, "s1"), (6, "s2")]⟩ "zz"
      = none :=
  ⟨⟨by decide, by decide, by decide, rfl⟩,
   (c1_pair_table_resolves [(5 : DiscordId), 6] ["s1", "s2"]
     ⟨[("s1", 5), ("s2", 6)], [(5, "s1"), (6, "s2")]⟩
     (by decide) (by decide) (by decide) rfl).1 0 (by decide) (by decide),
   (c1_pair_table_resolves [(5 : DiscordId), 6] ["s1", "s2"]
     ⟨[("s1", 5), ("s2", 6)], [(5, "s1"), (6, "s2")]⟩
     (by decide) (by decide) (by decide) rfl).2.1 1 (by decide) (by decide),
   (c1_pair_table_resolves [(5 : DiscordId), 6] ["s1", "s2"]
     ⟨[("s1", 5), ("s2", 6)], [(5, "s1"), (6, "s2")]⟩
     (by decide) (by decide) (by decide) rfl).2.2.1 "zz" (by decide)⟩

/-- Claim C10: with equal-length lists, Pair Table construction succeeds
even in the presence of duplicates, and each direction's mapping binds a
duplicated source id to the destination id paired at the LAST position
where the source id occurs. -/
theorem c10_duplicate_last_occurrence_wins (discordIds : List DiscordId)
    (stoatIds : List StoatId) (hlen : discordIds.length = stoatIds.length) :
    buildPairTable discordIds stoatIds =
      .ok ⟨(discordIds.zip stoatIds).map (fun p => (p.2, p.1)),
           discordIds.zip stoatIds⟩ ∧
    (∀ (i : Nat) (hiS : i < stoatIds.length) (hiD : i < discordIds.length),
      (∀ (j : Nat) (hj : j < stoatIds.length), i < j →
        stoatIds.get ⟨j, hj⟩ ≠ stoatIds.get ⟨i, hiS⟩) →
      resolveToDiscord ⟨(discordIds.zip stoatIds).map (fun p => (p.2, p.1)),
          discordIds.zip stoatIds⟩ (stoatIds.get ⟨i, hiS⟩)
        = some (discordIds.get ⟨i, hiD⟩)) ∧
    (∀ (i : Nat) (hiD : i < discordIds.length) (hiS : i < stoatIds.length),
      (∀ (j : Nat) (hj : j < discordIds.length), i < j →
        discordIds.get ⟨j, hj⟩ ≠ discordIds.get ⟨i, hiD⟩) →
      resolveToStoat ⟨(discordIds.zip stoatIds).map (fun p => (p.2, p.1)),
          discordIds.zip stoatIds⟩ (discordIds.get ⟨i, hiD⟩)
        = some (stoatIds.get ⟨i, hiS⟩)) := by
  refine ⟨by simp [buildPairTable, hlen], ?_, ?_⟩
  · intro i hiS hiD hlast
    show dictGet ((discordIds.zip stoatIds).map (fun p => (p.2, p.1))) _ = _
    rw [zip_map_swap]
    exact dictGet_zip_last stoatIds discordIds hlen.symm i hiS hiD hlast
  · intro i hiD hiS hlast
    exact dictGet_zip_last discordIds stoatIds hlen i hiD hiS hlast

/-- Witness for C10: with the duplicate Stoat id `"a"` in
`["a", "a"]` paired against `[1, 2]`, construction succeeds and position 1
(the last occurrence) wins: `"a"` resolves to 2. -/
theorem c10_witness :
    ([(1 : DiscordId), 2].length = ["a", "a"].length) ∧
    buildPairTable [(1 : DiscordId), 2] ["a", "a"] =
      .ok ⟨([(1 : DiscordId), 2].zip ["a", "a"]).map (fun p => (p.2, p.1)),
           [(1 : DiscordId), 2].zip ["a", "a"]⟩ ∧
    resolveToDiscord ⟨([(1 : DiscordId), 2].zip ["a", "a"]).map
        (fun p => (p.2, p.1)), [(1 : DiscordId), 2].zip ["a", "a"]⟩ "a"
      = some 2 :=
  ⟨by decide,
   (c10_duplicate_last_occurrence_wins [(1 : DiscordId), 2] ["a", "a"]
     (by decide)).1,
   (c10_duplicate_last_occurrence_wins [(1 : DiscordId), 2] ["a", "a"]
     (by decide)).2.1 1 (by decide) (by decide)
     (by
       intro j hj hij
       simp only [List.length_cons, List.length_nil] at hj
       exact absurd hij (by omega))⟩

/-- Claim C4: a message that passes the filter chain and whose resolved
send target is registered produces exactly one outbound send whose text
content is the first 2000 code points of the original (hence unchanged
when the content is at most 2000 long), with the display-name override
truncated to 80 characters on the Stoat-to-Discord direction and to 32 on
the Discord-to-Stoat direction. -/
theorem c4_truncation (table : PairTable) (st : BridgeState) (meId : String)
    (sm : StoatMessage) (d : DiscordId) (w : Int) (selfUserId : Int)
    (dm : DiscordMessage) (s : StoatId)
    (h1 : sm.authorId ≠ meId) (h2 : resolveToDiscord table sm.channelId = some d)
    (h3 : sm.content ≠ "") (h4 : dictGet st.discordWebhooks d = some w)
    (h5 : isOwnWebhookMessage st dm = false)
    (h6 : resolveToStoat table dm.channelId = some s)
    (h7 : dm.content ≠ "") (h8 : s ∈ st.stoatChannels) :
    onMessageCreate table st meId sm false =
      [.sendDiscord d w (pyTake sm.content 2000)
        (pyTake (stoatAuthorName sm) 80) sm.authorAvatarUrl] ∧
    onMessage table st selfUserId dm false =
      [.sendStoat s (pyTake dm.content 2000) (pyTake dm.authorDisplayName 32)
        (match dm.authorAvatarUrl with
         | some u => u
         | none => dm.authorDefaultAvatarUrl)] ∧
    (∀ c : String, c.length ≤ 2000 → pyTake c 2000 = c) := by
  refine ⟨?_, ?_, ?_⟩
  · simp [onMessageCreate, h1, h2, h3, h4]
  · simp [onMessage, h5, h6, h7, h8]
  · intro c hc
    cases c with
    | mk data =>
      exact congrArg String.mk
        (List.take_of_length_le (by simpa [String.length] using hc))

/-- Witness for C4 at a concrete relayed message on each direction (note
the 40-character Discord display name, longer than the 32-character
Stoat limit). -/
theorem c4_witness :
    (("u1" : String) ≠ "me" ∧
     resolveToDiscord ⟨[("s1", 5)], [(5, "s1")]⟩ "s1" = some 5 ∧
     ("hello" : String) ≠ "" ∧
     dictGet (BridgeState.mk [(5, 900)] ["s1"]).discordWebhooks 5 = some 900 ∧
     isOwnWebhookMessage ⟨[(5, 900)], ["s1"]⟩
       ⟨none, 7, 5, "hello", "0123456789012345678901234567890123456789",
        none, "dflt"⟩ = false ∧
     resolveToStoat ⟨[("s1", 5)], [(5, "s1")]⟩ 5 = some "s1" ∧
     ("s1" : StoatId) ∈ (BridgeState.mk [(5, 900)] ["s1"]).stoatChannels) ∧
    onMessageCreate ⟨[("s1", 5)], [(5, "s1")]⟩ ⟨[(5, 900)], ["s1"]⟩ "me"
      ⟨"u1", "s1", "hello", "Bob", none, none⟩ false =
      [.sendDiscord 5 900
        (pyTake (StoatMessage.content ⟨"u1", "s1", "hello", "Bob", none, none⟩) 2000)
        (pyTake (stoatAuthorName ⟨"u1", "s1", "hello", "Bob", none, none⟩) 80)
        none] ∧
    onMessage ⟨[("s1", 5)], [(5, "s1")]⟩ ⟨[(5, 900)], ["s1"]⟩ 42
      ⟨none, 7, 5, "hello", "0123456789012345678901234567890123456789",
       none, "dflt"⟩ false =
      [.sendStoat "s1" (pyTake "hello" 2000)
        (pyTake "0123456789012345678901234567890123456789" 32) "dflt"] :=
  ⟨⟨by decide, by decide, by decide, by decide, by decide, by decide,
    by decide⟩,
   (c4_truncation ⟨[("s1", 5)], [(5, "s1")]⟩ ⟨[(5, 900)], ["s1"]⟩ "me"
     ⟨"u1", "s1", "hello", "Bob", none, none⟩ 5 900 42
     ⟨none, 7, 5, "hello", "0123456789012345678901234567890123456789",
      none, "dflt"⟩ "s1"
     (by decide) (by decide) (by decide) (by decide) (by decide) (by decide)
     (by decide) (by decide)).1,
   (c4_truncation ⟨[("s1", 5)], [(5, "s1")]⟩ ⟨[(5, 900)], ["s1"]⟩ "me"
     ⟨"u1", "s1", "hello", "Bob", none, none⟩ 5 900 42
     ⟨none, 7, 5, "hello", "0123456789012345678901234567890123456789",
      none, "dflt"⟩ "s1"
     (by decide) (by decide) (by decide) (by decide) (by decide) (by decide)
     (by decide) (by decide)).2.1⟩

/-- Claim C6: a message that passes the filter chain but whose resolved
destination send target is absent from the Registry yields exactly one
warning effect and zero outbound sends, for either value of the send
outcome (no send is attempted); the handler is a total function, so no
exception escapes it. -/
theorem c6_not_ready_warning (table : PairTable) (st : BridgeState)
    (meId : String) (sm : StoatMessage) (d : DiscordId) (f : Bool)
    (selfUserId : Int) (dm : DiscordMessage) (s : StoatId) (f' : Bool)
    (h1 : sm.authorId ≠ meId) (h2 : resolveToDiscord table sm.channelId = some d)
    (h3 : sm.content ≠ "") (h4 : dictGet st.discordWebhooks d = none)
    (h5 : isOwnWebhookMessage st dm = false)
    (h6 : resolveToStoat table dm.channelId = some s)
    (h7 : dm.content ≠ "") (h8 : s ∉ st.stoatChannels) :
    onMessageCreate table st meId sm f = [.warnWebhookNotReady d] ∧
    onMessage table st selfUserId dm f' = [.warnStoatNotReady s] := by
  constructor
  · simp [onMessageCreate, h1, h2, h3, h4]
  · simp [onMessage, h5, h6, h7, h8]

/-- Witness for C6 with empty registries, on both directions. -/
theorem c6_witness :
    (("u1" : String) ≠ "me" ∧
     resolveToDiscord ⟨[("s1", 5)], [(5, "s1")]⟩ "s1" = some 5 ∧
     ("hello" : String) ≠ "" ∧
     dictGet (BridgeState.mk [] []).discordWebhooks 5 = none ∧
     isOwnWebhookMessage ⟨[], []⟩ ⟨none, 7, 5, "hello", "Bobby", none, "dflt"⟩
       = false ∧
     resolveToStoat ⟨[("s1", 5)], [(5, "s1")]⟩ 5 = some "s1" ∧
     ("s1" : StoatId) ∉ (BridgeState.mk [] []).stoatChannels) ∧
    onMessageCreate ⟨[("s1", 5)], [(5, "s1")]⟩ ⟨[], []⟩ "me"
      ⟨"u1", "s1", "hello", "Bob", none, none⟩ false
      = [.warnWebhookNotReady 5] ∧
    onMessage ⟨[("s1", 5)], [(5, "s1")]⟩ ⟨[], []⟩ 42
      ⟨none, 7, 5, "hello", "Bobby", none, "dflt"⟩ true
      = [.warnStoatNotReady "s1"] :=
  ⟨⟨by decide, by decide, by decide, by decide, by decide, by decide,
    by decide⟩,
   (c6_not_ready_warning ⟨[("s1", 5)], [(5, "s1")]⟩ ⟨[], []⟩ "me"
     ⟨"u1", "s1", "hello", "Bob", none, none⟩ 5 false 42
     ⟨none, 7, 5, "hello", "Bobby", none, "dflt"⟩ "s1" true
     (by decide) (by decide) (by decide) (by decide) (by decide) (by decide)
     (by decide) (by decide)).1,
   (c6_not_ready_warning ⟨[("s1", 5)], [(5, "s1")]⟩ ⟨[], []⟩ "me"
     ⟨"u1", "s1", "hello", "Bob", none, none⟩ 5 false 42
     ⟨none, 7, 5, "hello", "Bobby", none, "dflt"⟩ "s1" true
     (by decide) (by decide) (by decide) (by decide) (by decide) (by decide)
     (by decide) (by decide)).2⟩

/-- Claim C7: when the single outbound send call raises, the handler's
`try`/`except` catches it at that call site and the event contributes
exactly one error-log effect and nothing else; the handler mutates no
state, so every subsequent event in the stream is processed exactly as if
the failing event had never occurred. -/
theorem c7_send_failure_isolated (table : PairTable) (st : BridgeState)
    (meId : String) (sm : StoatMessage) (d : DiscordId) (w : Int)
    (rest : List (StoatMessage × Bool)) (selfUserId : Int)
    (dm : DiscordMessage) (s : StoatId) (rest' : List (DiscordMessage × Bool))
    (h1 : sm.authorId ≠ meId) (h2 : resolveToDiscord table sm.channelId = some d)
    (h3 : sm.content ≠ "") (h4 : dictGet st.discordWebhooks d = some w)
    (h5 : isOwnWebhookMessage st dm = false)
    (h6 : resolveToStoat table dm.channelId = some s)
    (h7 : dm.content ≠ "") (h8 : s ∈ st.stoatChannels) :
    runStoatEvents table st meId ((sm, true) :: rest) =
      .errorStoatToDiscord d :: runStoatEvents table st meId rest ∧
    runDiscordEvents table st selfUserId ((dm, true) :: rest') =
      .errorDiscordToStoat s :: runDiscordEvents table st selfUserId rest' := by
  constructor
  · simp [runStoatEvents, onMessageCreate, h1, h2, h3, h4]
  · simp [runDiscordEvents, onMessage, h5, h6, h7, h8]

/-- Witness for C7: a failing send followed by a successful relay of the
next independent event, on both directions. -/
theorem c7_witness :
    (("u1" : String) ≠ "me" ∧
     resolveToDiscord ⟨[("s1", 5)], [(5, "s1")]⟩ "s1" = some 5 ∧
     ("hello" : String) ≠ "" ∧
     dictGet (BridgeState.mk [(5, 900)] ["s1"]).discordWebhooks 5 = some 900 ∧
     isOwnWebhookMessage ⟨[(5, 900)], ["s1"]⟩
       ⟨none, 7, 5, "hello", "Bobby", none, "dflt"⟩ = false ∧
     resolveToStoat ⟨[("s1", 5)], [(5, "s1")]⟩ 5 = some "s1" ∧
     ("s1" : StoatId) ∈ (BridgeState.mk [(5, 900)] ["s1"]).stoatChannels) ∧
    runStoatEvents ⟨[("s1", 5)], [(5, "s1")]⟩ ⟨[(5, 900)], ["s1"]⟩ "me"
      [(⟨"u1", "s1", "hello", "Bob", none, none⟩, true),
       (⟨"u2", "s1", "next", "Ann", none, none⟩, false)] =
      .errorStoatToDiscord 5 ::
        runStoatEvents ⟨[("s1", 5)], [(5, "s1")]⟩ ⟨[(5, 900)], ["s1"]⟩ "me"
          [(⟨"u2", "s1", "next", "Ann", none, none⟩, false)] ∧
    runDiscordEvents ⟨[("s1", 5)], [(5, "s1")]⟩ ⟨[(5, 900)], ["s1"]⟩ 42
      [(⟨none, 7, 5, "hello", "Bobby", none, "dflt"⟩, true)] =
      .errorDiscordToStoat "s1" ::
        runDiscordEvents ⟨[("s1", 5)], [(5, "s1")]⟩ ⟨[(5, 900)], ["s1"]⟩ 42 [] :=
  ⟨⟨by decide, by decide, by decide, by decide, by decide, by decide,
    by decide⟩,
   (c7_send_failure_isolated ⟨[("s1", 5)], [(5, "s1")]⟩ ⟨[(5, 900)], ["s1"]⟩
     "me" ⟨"u1", "s1", "hello", "Bob", none, none⟩ 5 900
     [(⟨"u2", "s1", "next", "Ann", none, none⟩, false)] 42
     ⟨none, 7, 5, "hello", "Bobby", none, "dflt"⟩ "s1" []
     (by decide) (by decide) (by decide) (by decide) (by decide) (by decide)
     (by decide) (by decide)).1,
   (c7_send_failure_isolated ⟨[("s1", 5)], [(5, "s1")]⟩ ⟨[(5, 900)], ["s1"]⟩
     "me" ⟨"u1", "s1", "hello", "Bob", none, none⟩ 5 900
     [(⟨"u2", "s1", "next", "Ann", none, none⟩, false)] 42
     ⟨none, 7, 5, "hello", "Bobby", none, "dflt"⟩ "s1" []
     (by decide) (by decide) (by decide) (by decide) (by decide) (by decide)
     (by decide) (by decide)).2⟩

/-- Claim C8 as stated fails on the Stoat-to-Discord direction: a Stoat
author with no avatar yields `avatar_url = None` in the outbound webhook
send — that handler has no fallback to a default avatar URL. -/
theorem c8_counterexample :
    onMessageCreate ⟨[("s1", 5)], [(5, "s1")]⟩ ⟨[(5, 900)], ["s1"]⟩ "me"
      ⟨"u1", "s1", "hi", "Bob", none, none⟩ false
      = [.sendDiscord 5 900 "hi" "Bob" none] := by decide

/-- Claim C8 (amended): on the Discord-to-Stoat direction a missing author
avatar falls back to the author's default avatar URL, while on the
Stoat-to-Discord direction the avatar override is absent (`None`) when the
author has no avatar — the default there is left to the platform. -/
theorem c8_avatar_fallback (table : PairTable) (st : BridgeState)
    (meId : String) (sm : StoatMessage) (d : DiscordId) (w : Int)
    (selfUserId : Int) (dm : DiscordMessage) (s : StoatId)
    (h1 : sm.authorId ≠ meId) (h2 : resolveToDiscord table sm.channelId = some d)
    (h3 : sm.content ≠ "") (h4 : dictGet st.discordWebhooks d = some w)
    (hav : sm.authorAvatarUrl = none)
    (h5 : isOwnWebhookMessage st dm = false)
    (h6 : resolveToStoat table dm.channelId = some s)
    (h7 : dm.content ≠ "") (h8 : s ∈ st.stoatChannels)
    (hav' : dm.authorAvatarUrl = none) :
    onMessage table st selfUserId dm false =
      [.sendStoat s (pyTake dm.content 2000) (pyTake dm.authorDisplayName 32)
        dm.authorDefaultAvatarUrl] ∧
    onMessageCreate table st meId sm false =
      [.sendDiscord d w (pyTake sm.content 2000)
        (pyTake (stoatAuthorName sm) 80) none] := by
  constructor
  · simp [onMessage, h5, h6, h7, h8, hav']
  · simp [onMessageCreate, h1, h2, h3, h4, hav]

/-- Witness for (amended) C8 at concrete avatar-less authors. -/
theorem c8_witness :
    (("u1" : String) ≠ "me" ∧
     resolveToDiscord ⟨[("s1", 5)], [(5, "s1")]⟩ "s1" = some 5 ∧
     ("hi" : String) ≠ "" ∧
     dictGet (BridgeState.mk [(5, 900)] ["s1"]).discordWebhooks 5 = some 900 ∧
     isOwnWebhookMessage ⟨[(5, 900)], ["s1"]⟩
       ⟨none, 7, 5, "hi", "Bobby", none, "dflt"⟩ = false ∧
     resolveToStoat ⟨[("s1", 5)], [(5, "s1")]⟩ 5 = some "s1" ∧
     ("s1" : StoatId) ∈ (BridgeState.mk [(5, 900)] ["s1"]).stoatChannels) ∧
    onMessage ⟨[("s1", 5)], [(5, "s1")]⟩ ⟨[(5, 900)], ["s1"]⟩ 42
      ⟨none, 7, 5, "hi", "Bobby", none, "dflt"⟩ false =
      [.sendStoat "s1" (pyTake "hi" 2000) (pyTake "Bobby" 32) "dflt"] ∧
    onMessageCreate ⟨[("s1", 5)], [(5, "s1")]⟩ ⟨[(5, 900)], ["s1"]⟩ "me"
      ⟨"u1", "s1", "hi", "Bob", none, none⟩ false =
      [.sendDiscord 5 900 (pyTake "hi" 2000)
        (pyTake (stoatAuthorName ⟨"u1", "s1", "hi", "Bob", none, none⟩) 80)
        none] :=
  ⟨⟨by decide, by decide, by decide, by decide, by decide, by decide,
    by decide⟩,
   (c8_avatar_fallback ⟨[("s1", 5)], [(5, "s1")]⟩ ⟨[(5, 900)], ["s1"]⟩ "me"
     ⟨"u1", "s1", "hi", "Bob", none, none⟩ 5 900 42
     ⟨none, 7, 5, "hi", "Bobby", none, "dflt"⟩ "s1"
     (by decide) (by decide) (by decide) (by decide) (by decide) (by decide)
     (by decide) (by decide) (by decide) (by decide)).1,
   (c8_avatar_fallback ⟨[("s1", 5)], [(5, "s1")]⟩ ⟨[(5, 900)], ["s1"]⟩ "me"
     ⟨"u1", "s1", "hi", "Bob", none, none⟩ 5 900 42
     ⟨none, 7, 5, "hi", "Bobby", none, "dflt"⟩ "s1"
     (by decide) (by decide) (by decide) (by decide) (by decide) (by decide)
     (by decide) (by decide) (by decide) (by decide)).2⟩

end Bridge
